import Mathlib

/-!
# Verification of the vtec-charger-dashboard aggregation core

Shallow embedding of the SQL query semantics (`src/db_queries.py`) and the
pandas pivot / totals / filtering logic (`src/streamlit_app.py`) of the
vtec-charger-dashboard repository, together with proofs of the spec's
testable properties.

Numeric readings (`total_usage_kwh`, a float in the source) are embedded as
rationals; counts are naturals. A database timestamp `end_date_time` is
embedded at day granularity as `(year, month, day)` fields, which is all the
queries inspect (`EXTRACT`/`date_trunc`/`strftime` of year, month, day,
day-of-week).
-/

/-- One row of `<schema>.fact_meter_readings`, as far as the two queries
inspect it: the calendar components of `end_date_time`, the meter name and
the usage reading. -/
structure FactRow where
  year : Nat
  month : Nat
  day : Nat
  meter_name : String
  total_usage_kwh : ℚ
deriving DecidableEq, Repr

/-- Day-of-week of a proleptic-Gregorian date, 0 = Sunday, computed by
Sakamoto's method; embeds what `strftime(end_date_time, '%A')` keys on. -/
def dayOfWeek (y m d : Nat) : Nat :=
  let t : List Nat := [0, 3, 2, 5, 0, 3, 5, 1, 4, 6, 2, 4]
  let y' := if m < 3 then y - 1 else y
  (y' + y' / 4 - y' / 100 + y' / 400 + t.getD (m - 1) 0 + d) % 7

/-- English day name for a day-of-week index (0 = Sunday), the names
`strftime('%A')` produces. -/
def dayNameOfNat : Nat → String
  | 0 => "Sunday"
  | 1 => "Monday"
  | 2 => "Tuesday"
  | 3 => "Wednesday"
  | 4 => "Thursday"
  | 5 => "Friday"
  | 6 => "Saturday"
  | _ => ""

/-- `strftime(end_date_time, '%A')` for a fact row. -/
def FactRow.dayName (r : FactRow) : String :=
  dayNameOfNat (dayOfWeek r.year r.month r.day)

/-- A calendar date as the dashboard's date widgets produce one; ordered
lexicographically, as Python `datetime.date` is. -/
structure AppDate where
  year : Nat
  month : Nat
  day : Nat
deriving DecidableEq, Repr

/-- Total (lexicographic) order on dates, `a <= b` for Python dates. -/
def dateLeB (a b : AppDate) : Bool :=
  a.year < b.year ∨
    (a.year = b.year ∧
      (a.month < b.month ∨ (a.month = b.month ∧ a.day ≤ b.day)))

/-- `a > b` on Python dates; date order is total, so it is `¬ (a ≤ b)`. -/
def dateGtB (a b : AppDate) : Bool :=
  ! dateLeB a b

/-! ## The monthly query (`get_query_monthly_kwh_and_charge_event`)

```sql
SELECT date_trunc('month', end_date_time) AS month,
       EXTRACT(YEAR FROM end_date_time) AS year_no,
       EXTRACT(MONTH FROM end_date_time) AS month_no,
       meter_name,
       COUNT(DISTINCT EXTRACT(DAY FROM end_date_time))
         FILTER (WHERE total_usage_kwh > 0) AS charging_events,
       SUM(total_usage_kwh) AS total_usage_kwh
FROM <schema>.fact_meter_readings
GROUP BY month, EXTRACT(YEAR ...), EXTRACT(MONTH ...), meter_name
ORDER BY year_no, month_no, meter_name
```
`date_trunc('month', ...)` determines the same partition as
`(year, month)`, so the groups are keyed by `(year, month, meter_name)`.
The `ORDER BY` only fixes row order, which no verified property depends
on, so result rows are listed in first-occurrence order of their key. -/

/-- One row of the monthly query's result set (the dashboard's `df_base`).
`month` is the `date_trunc('month', ...)` timestamp. -/
structure MonthlyRow where
  month : AppDate
  year_no : Nat
  month_no : Nat
  meter_name : String
  charging_events : Nat
  total_usage_kwh : ℚ
deriving DecidableEq, Repr

/-- Grouping key of the monthly query: `(year, month, meter_name)`. -/
def monthlyKey (r : FactRow) : Nat × Nat × String :=
  (r.year, r.month, r.meter_name)

/-- `COUNT(DISTINCT EXTRACT(DAY FROM end_date_time)) FILTER
(WHERE total_usage_kwh > 0)` within the group keyed by `k`. -/
def chargingEventsOf (rows : List FactRow) (k : Nat × Nat × String) : Nat :=
  ((((rows.filter (fun r => monthlyKey r = k)).filter
      (fun r => decide (0 < r.total_usage_kwh))).map (·.day)).dedup).length

/-- `SUM(total_usage_kwh)` within the group keyed by `k`. -/
def totalUsageOf (rows : List FactRow) (k : Nat × Nat × String) : ℚ :=
  (((rows.filter (fun r => monthlyKey r = k)).map (·.total_usage_kwh)).sum)

/-- Result set of the monthly query on a table of fact rows: one row per
distinct `(year, month, meter_name)` key, with the aggregates above.
`date_trunc('month', ...)` is the first day of the key's month. -/
def get_query_monthly_result (rows : List FactRow) : List MonthlyRow :=
  ((rows.map monthlyKey).dedup).map (fun k =>
    { month := ⟨k.1, k.2.1, 1⟩
      year_no := k.1
      month_no := k.2.1
      meter_name := k.2.2
      charging_events := chargingEventsOf rows k
      total_usage_kwh := totalUsageOf rows k })

/-! ## The daily query (`get_query_daily_kwh`)

```sql
SELECT strftime(end_date_time, '%Y') AS year,
       strftime(end_date_time, '%A') AS day_name,
       meter_name,
       SUM(total_usage_kwh) AS total_usage_kwh
FROM <schema>.fact_meter_readings
WHERE total_usage_kwh > 0
GROUP BY year, day_name, meter_name
ORDER BY meter_name, year
```
Again the `ORDER BY` only fixes row order; rows are listed in
first-occurrence order of their key. -/

/-- One row of the daily query's result set (the dashboard's `df_daily`). -/
structure DailyRow where
  year : Nat
  day_name : String
  meter_name : String
  total_usage_kwh : ℚ
deriving DecidableEq, Repr

/-- Grouping key of the daily query: `(year, day_name, meter_name)`. -/
def dailyKey (r : FactRow) : Nat × String × String :=
  (r.year, r.dayName, r.meter_name)

/-- Result set of the daily query: the `WHERE total_usage_kwh > 0` filter,
then one row per distinct `(year, day_name, meter_name)` key with the sum
of the surviving readings. -/
def get_query_daily_kwh_result (rows : List FactRow) : List DailyRow :=
  (((rows.filter (fun r => decide (0 < r.total_usage_kwh))).map
      dailyKey).dedup).map (fun k =>
    { year := k.1
      day_name := k.2.1
      meter_name := k.2.2
      total_usage_kwh :=
        (((rows.filter (fun r => decide (0 < r.total_usage_kwh))).filter
            (fun r => dailyKey r = k)).map (·.total_usage_kwh)).sum })

/-- Number of days of a Gregorian calendar month (`y` a year, `mo` 1–12). -/
def daysInMonth (y mo : Nat) : Nat :=
  if mo = 2 then
    if (y % 4 = 0 ∧ y % 100 ≠ 0) ∨ y % 400 = 0 then 29 else 28
  else if mo = 4 ∨ mo = 6 ∨ mo = 9 ∨ mo = 11 then 30
  else 31

/-! ## Pivoting (`get_pivot_monthly_summary`, streamlit_app.py:103-112)

```python
pivot_df = df.pivot_table(
    index=['year_no','month_no'], columns='meter_name',
    values=['charging_events','total_usage_kwh'], aggfunc='sum',
).fillna(0)
```
The pivot is embedded as its row index (the distinct `(year_no, month_no)`
pairs of the input), its column meters (the distinct meter names), and a
cell function. Before `fillna(0)` a cell of the cross product with no
matching input rows is null (`none`); `fillna(0)` turns it into `0`.
pandas also sorts the index and columns; index/meter order is kept as
first occurrence here, since no verified property depends on it. -/

/-- The two pivoted value columns. -/
inductive Metric
  | charging_events
  | total_usage_kwh
deriving DecidableEq, Repr

/-- The value a monthly result row contributes to a metric column. -/
def MonthlyRow.metric (r : MonthlyRow) : Metric → ℚ
  | .charging_events => (r.charging_events : ℚ)
  | .total_usage_kwh => r.total_usage_kwh

/-- A pivot table before `fillna`: cells of the cross product of index and
meters are null (`none`) when no input row matches. -/
structure RawPivot where
  index : List (Nat × Nat)
  meters : List String
  cellOpt : Nat × Nat → String → Metric → Option ℚ

/-- A pivot table after `fillna(0)`: every cell holds a rational. -/
structure PivotTable where
  index : List (Nat × Nat)
  meters : List String
  cell : Nat × Nat → String → Metric → ℚ

/-- `df.pivot_table(index=['year_no','month_no'], columns='meter_name',
values=['charging_events','total_usage_kwh'], aggfunc='sum')`: group the
input rows by `(period, meter)`; a populated cell sums its group. -/
def pivot_table (df : List MonthlyRow) : RawPivot where
  index := (df.map (fun r => (r.year_no, r.month_no))).dedup
  meters := (df.map (·.meter_name)).dedup
  cellOpt := fun p m k =>
    if (df.filter (fun r =>
        decide ((r.year_no, r.month_no) = p ∧ r.meter_name = m))).isEmpty
    then none
    else some (((df.filter (fun r =>
        decide ((r.year_no, r.month_no) = p ∧ r.meter_name = m))).map
          (·.metric k)).sum)

/-- `get_pivot_monthly_summary`: the pivot with `.fillna(0)` applied. -/
def get_pivot_monthly_summary (df : List MonthlyRow) : PivotTable where
  index := (pivot_table df).index
  meters := (pivot_table df).meters
  cell := fun p m k => ((pivot_table df).cellOpt p m k).getD 0

/-! ## Totals (`get_totals`, streamlit_app.py:130-154)

```python
totals = df.sum(axis=0).to_frame().T          # the appended 'Total' row
...
cols = df.columns.get_level_values(1).unique()
for col in cols:
    total = df.xs(col, axis=1, level=1).sum(axis=1)   # 'Total' columns
```
`get_totals` is only called at streamlit_app.py:308, after the app swaps
the pivot's column levels (line 276) so that level 0 is the meter and
level 1 the metric. Hence `cols` is the two metrics, and each `Total`
column sums a metric across meters. The per-row sums are taken over the
frame with the `Total` row already appended, so the grand-total cell
(`Total` row × `Total` column) sums the `Total` row across meters. -/

/-- The table `get_totals` returns: the original cells plus the appended
`Total` row, the `Total` column-group at each data row, and the
grand-total cell where they cross. -/
structure TotalsTable where
  index : List (Nat × Nat)
  meters : List String
  cell : Nat × Nat → String → Metric → ℚ
  totalRow : String → Metric → ℚ
  totalCol : Nat × Nat → Metric → ℚ
  grandTotal : Metric → ℚ

/-- `get_totals` as applied at its call site (column level 1 = metric). -/
def get_totals (t : PivotTable) : TotalsTable where
  index := t.index
  meters := t.meters
  cell := t.cell
  totalRow := fun m k => (t.index.map (fun p => t.cell p m k)).sum
  totalCol := fun p k => (t.meters.map (fun m => t.cell p m k)).sum
  grandTotal := fun k =>
    (t.meters.map (fun m => (t.index.map (fun p => t.cell p m k)).sum)).sum

/-! ## The app's control flow (`app`, streamlit_app.py:187-371)

The dashboard script is embedded as a function from the two fetched
result sets and the two sidebar date selections to the list of UI
elements it renders, plus the unhandled Python exception it aborts with,
if any. Only the elements the verified properties mention are
distinguished; static markdown blocks are not recorded.

`start_date`/`end_date` are initialised to `None` (lines 206-207) and
assigned only inside the `if not df_base.empty` block (lines 244-253), so
when `df_base` is empty and `df_daily` is not, line 320 compares
`None <= None` and raises `TypeError`. -/

/-- UI elements the script renders, in program order. Chart elements carry
the dataframe they display. -/
inductive UIEvent
  | writeFetching
  | writeSuccess
  | titleDashboard
  | warnInvalidRange
  | metricsAllTime
  | monthlyChart (data : List MonthlyRow)
  | monthlyTable
  | dailyChart (data : List DailyRow)
  | warnNoData
deriving DecidableEq, Repr

/-- The Python `TypeError` message for the `None <= None` comparison. -/
def noneCompareError : String :=
  "TypeError: not supported between instances of NoneType and NoneType"

/-- One run of `app()` given the monthly result set `df_base`, the daily
result set `df_daily`, and the sidebar selections `s` (start) and `e`
(end): the rendered elements and the exception that aborted the run, if
any. -/
def app (df_base : List MonthlyRow) (df_daily : List DailyRow)
    (s e : AppDate) : List UIEvent × Option String :=
  if df_base.isEmpty then
    -- lines 206-207: start_date and end_date stay None
    if df_daily.isEmpty then
      ([.writeFetching, .warnNoData], none)
    else
      -- line 320: None <= None raises TypeError
      ([.writeFetching], some noneCompareError)
  else
    -- line 256: warning when start_date > end_date
    let warnEvs : List UIEvent :=
      if dateGtB s e then [.warnInvalidRange] else []
    -- lines 260-263: month-range filter, falling back to df_base
    let filtered :=
      if dateLeB s e then
        df_base.filter (fun r => dateLeB s r.month && dateLeB r.month e)
      else df_base
    let monthlyEvs : List UIEvent :=
      [.writeSuccess, .titleDashboard] ++ warnEvs ++
        [.metricsAllTime, .monthlyChart filtered, .monthlyTable]
    if df_daily.isEmpty then
      ([.writeFetching] ++ monthlyEvs ++ [.warnNoData], none)
    else
      -- lines 320-326: year-range filter, falling back to df_daily
      let filteredD :=
        if dateLeB s e then
          df_daily.filter (fun r =>
            decide (s.year ≤ r.year ∧ r.year ≤ e.year))
        else df_daily
      ([.writeFetching] ++ monthlyEvs ++ [.dailyChart filteredD], none)

/-! ## Day-of-week display (streamlit_app.py:329-352)

```python
day_order = ['Sunday', 'Monday', 'Tuesday', 'Wednesday', 'Thursday',
             'Friday', 'Saturday']
...
x=alt.X('day_name:N', title='Day of the Week', sort=day_order),
```
The chart's x-axis lists the day-name categories present in the data in
the order of `day_order`. -/

/-- The custom order of streamlit_app.py:330. -/
def day_order : List String :=
  ["Sunday", "Monday", "Tuesday", "Wednesday", "Thursday", "Friday",
   "Saturday"]

/-- The x-axis categories of the weekly chart: the day names present in
the charted data, in `sort=day_order` order. -/
def displayedDayAxis (data : List DailyRow) : List String :=
  day_order.filter (fun d => data.any (fun r => r.day_name = d))

/-! ## Spec-side definitions and sample data -/

/-- Spec-side reading of `charging_events` (for comparison with the
query's aggregate): the set of calendar days of month `mo` of year `y` on
which meter `m` has at least one reading with positive usage. -/
def positiveUsageDays (rows : List FactRow) (y mo : Nat) (m : String) :
    Finset Nat :=
  ((rows.filter (fun r =>
      decide (r.year = y ∧ r.month = mo ∧ r.meter_name = m ∧
        0 < r.total_usage_kwh))).map (·.day)).toFinset

/-- A one-row monthly result table, used to instantiate theorems. -/
def sampleMonthlyDf : List MonthlyRow :=
  [{ month := ⟨2024, 1, 1⟩, year_no := 2024, month_no := 1,
     meter_name := "M1", charging_events := 5, total_usage_kwh := 100 }]

/-- A two-row monthly table whose meter/period cross product has holes. -/
def sampleCrossDf : List MonthlyRow :=
  [{ month := ⟨2024, 1, 1⟩, year_no := 2024, month_no := 1,
     meter_name := "M1", charging_events := 5, total_usage_kwh := 100 },
   { month := ⟨2024, 2, 1⟩, year_no := 2024, month_no := 2,
     meter_name := "M2", charging_events := 3, total_usage_kwh := 50 }]

/-- The spec's example input: monthly rows
`[(2024,1,"M1",100,5),(2024,1,"M2",50,3)]` given as
`(year_no, month_no, meter_name, total_usage_kwh, charging_events)`. -/
def specExampleDf : List MonthlyRow :=
  [{ month := ⟨2024, 1, 1⟩, year_no := 2024, month_no := 1,
     meter_name := "M1", charging_events := 5, total_usage_kwh := 100 },
   { month := ⟨2024, 1, 1⟩, year_no := 2024, month_no := 1,
     meter_name := "M2", charging_events := 3, total_usage_kwh := 50 }]

/-- Sample fact rows for one meter: two positive readings on day 5, one
positive reading on day 7, and a zero reading on day 9. -/
def sampleFactRows : List FactRow :=
  [{ year := 2024, month := 1, day := 5, meter_name := "A",
     total_usage_kwh := 2 },
   { year := 2024, month := 1, day := 5, meter_name := "A",
     total_usage_kwh := 3 },
   { year := 2024, month := 1, day := 7, meter_name := "A",
     total_usage_kwh := 1 },
   { year := 2024, month := 1, day := 9, meter_name := "A",
     total_usage_kwh := 0 }]

/-- The monthly result row the sample fact rows group to: 2 + 3 + 1 + 0
kWh, with positive usage on the two distinct days 5 and 7. -/
def sampleMonthlyOut : MonthlyRow :=
  { month := ⟨2024, 1, 1⟩, year_no := 2024, month_no := 1,
    meter_name := "A", charging_events := 2, total_usage_kwh := 6 }

/-- A fact row with a non-positive reading, for the daily-query claims. -/
def sampleZeroRow : FactRow :=
  { year := 2024, month := 1, day := 6, meter_name := "A",
    total_usage_kwh := -1 }

/-- A sample daily result row. -/
def sampleDailyRow : DailyRow :=
  { year := 2024, day_name := "Friday", meter_name := "A",
    total_usage_kwh := 6 }

/-- A second sample daily result row, for permutation instances. -/
def sampleDailyRow2 : DailyRow :=
  { year := 2024, day_name := "Monday", meter_name := "A",
    total_usage_kwh := 3 }

/-- The daily result row of the sample fact rows' two positive Friday
readings (2024-01-05 was a Friday): 2 + 3 kWh. -/
def sampleDailyOut : DailyRow :=
  { year := 2024, day_name := "Friday", meter_name := "A",
    total_usage_kwh := 5 }

/-- A sample sidebar date. -/
def sampleDate : AppDate := ⟨2024, 6, 15⟩
/-! ## Helper lemmas and sample data -/

/-- Exchanging the order of a double list sum. -/
theorem sum_map_swap {α β : Type} (xs : List α) (ys : List β)
    (f : α → β → ℚ) :
    (xs.map (fun a => (ys.map (fun b => f a b)).sum)).sum =
    (ys.map (fun b => (xs.map (fun a => f a b)).sum)).sum := by
  induction xs with
  | nil => simp
  | cons a xs ih => simp [List.sum_map_add, ih]

/-! ## C1 -/

/-- C1: for every non-empty monthly input table, in the table
`get_totals` returns, the grand-total cell equals for each metric the sum
of all per-meter cells of that metric over all periods, each `Total` row
cell sums its column over the periods, and each `Total` column cell sums
its row over the meters. -/
theorem get_totals_totals_correct (df : List MonthlyRow) (_hne : df ≠ []) :
    (∀ k : Metric,
      (get_totals (get_pivot_monthly_summary df)).grandTotal k =
        ((get_totals (get_pivot_monthly_summary df)).index.map (fun p =>
          ((get_totals (get_pivot_monthly_summary df)).meters.map (fun m =>
            (get_totals (get_pivot_monthly_summary df)).cell p m k)).sum)).sum) ∧
    (∀ (m : String) (k : Metric),
      (get_totals (get_pivot_monthly_summary df)).totalRow m k =
        ((get_totals (get_pivot_monthly_summary df)).index.map (fun p =>
          (get_totals (get_pivot_monthly_summary df)).cell p m k)).sum) ∧
    (∀ (p : Nat × Nat) (k : Metric),
      (get_totals (get_pivot_monthly_summary df)).totalCol p k =
        ((get_totals (get_pivot_monthly_summary df)).meters.map (fun m =>
          (get_totals (get_pivot_monthly_summary df)).cell p m k)).sum) := by
  refine ⟨fun k => ?_, fun m k => rfl, fun p k => rfl⟩
  exact (sum_map_swap _ _ _).symm

/-- Witness for `get_totals_totals_correct` at a concrete one-row table. -/
theorem get_totals_totals_correct_witness :
    sampleMonthlyDf ≠ [] ∧
    (∀ k : Metric,
      (get_totals (get_pivot_monthly_summary sampleMonthlyDf)).grandTotal k =
        ((get_totals (get_pivot_monthly_summary sampleMonthlyDf)).index.map
          (fun p =>
            ((get_totals
              (get_pivot_monthly_summary sampleMonthlyDf)).meters.map
              (fun m =>
                (get_totals (get_pivot_monthly_summary sampleMonthlyDf)).cell
                  p m k)).sum)).sum) :=
  ⟨by simp [sampleMonthlyDf],
   (get_totals_totals_correct sampleMonthlyDf (by simp [sampleMonthlyDf])).1⟩

/-! ## C5 -/

/-- C5: the filled pivot has a (zero-defaulted) cell at every
`(period, meter, metric)` combination of the cross product of its index
and meters; a combination with no matching input row is null in the raw
pivot and holds `0` after `fillna(0)`, rather than being omitted. -/
theorem pivot_fills_missing_with_zero (df : List MonthlyRow)
    (p : Nat × Nat) (m : String) (k : Metric)
    (_hp : p ∈ (get_pivot_monthly_summary df).index)
    (_hm : m ∈ (get_pivot_monthly_summary df).meters)
    (habs : ∀ r ∈ df, ¬((r.year_no, r.month_no) = p ∧ r.meter_name = m)) :
    (pivot_table df).cellOpt p m k = none ∧
    (get_pivot_monthly_summary df).cell p m k = 0 := by
  have hfil : df.filter (fun r =>
      decide ((r.year_no, r.month_no) = p ∧ r.meter_name = m)) = [] := by
    rw [List.filter_eq_nil_iff]
    intro r hr h
    exact habs r hr (of_decide_eq_true h)
  constructor
  · simp only [pivot_table]
    rw [hfil]
    rfl
  · simp only [get_pivot_monthly_summary, pivot_table]
    rw [hfil]
    rfl

/-- Witness for `pivot_fills_missing_with_zero`: in the pivot of a table
holding meter `M1` in 2024-01 and meter `M2` in 2024-02 only, the cell
`(2024-02, M1)` is absent from the input and filled with zero. -/
theorem pivot_fills_missing_with_zero_witness :
    ((2024, 2) ∈ (get_pivot_monthly_summary sampleCrossDf).index) ∧
    ("M1" ∈ (get_pivot_monthly_summary sampleCrossDf).meters) ∧
    (∀ r ∈ sampleCrossDf,
      ¬((r.year_no, r.month_no) = (2024, 2) ∧ r.meter_name = "M1")) ∧
    (pivot_table sampleCrossDf).cellOpt (2024, 2) "M1"
        Metric.total_usage_kwh = none ∧
    (get_pivot_monthly_summary sampleCrossDf).cell (2024, 2) "M1"
        Metric.total_usage_kwh = 0 := by
  refine ⟨by decide, by decide, by decide, ?_⟩
  exact pivot_fills_missing_with_zero sampleCrossDf (2024, 2) "M1"
    Metric.total_usage_kwh (by decide) (by decide) (by decide)

/-- The code's distinct-day count within a group equals the cardinality of
the spec's set of positive-usage days for that group's key. -/
theorem chargingEventsOf_eq_card (rows : List FactRow)
    (k : Nat × Nat × String) :
    chargingEventsOf rows k = (positiveUsageDays rows k.1 k.2.1 k.2.2).card := by
  rw [chargingEventsOf, positiveUsageDays, List.card_toFinset]
  have hl : (rows.filter (fun r => monthlyKey r = k)).filter
      (fun r => decide (0 < r.total_usage_kwh)) =
      rows.filter (fun r => decide (r.year = k.1 ∧ r.month = k.2.1 ∧
        r.meter_name = k.2.2 ∧ 0 < r.total_usage_kwh)) := by
    rw [List.filter_filter]
    apply List.filter_congr
    intro r _
    rw [← Bool.decide_and]
    apply decide_eq_decide.mpr
    simp only [monthlyKey, Prod.ext_iff]
    tauto
  rw [hl]

/-- Membership in the spec's positive-usage day set. -/
theorem mem_positiveUsageDays (rows : List FactRow) (y mo : Nat)
    (m : String) (d : Nat) :
    d ∈ positiveUsageDays rows y mo m ↔
      ∃ r ∈ rows, r.year = y ∧ r.month = mo ∧ r.meter_name = m ∧
        0 < r.total_usage_kwh ∧ r.day = d := by
  simp only [positiveUsageDays, List.mem_toFinset, List.mem_map,
    List.mem_filter, decide_eq_true_eq]
  constructor
  · rintro ⟨r, ⟨hr, h1, h2, h3, h4⟩, h5⟩
    exact ⟨r, hr, h1, h2, h3, h4, h5⟩
  · rintro ⟨r, hr, h1, h2, h3, h4, h5⟩
    exact ⟨r, ⟨hr, h1, h2, h3, h4⟩, h5⟩

/-- C3: every monthly result row's `charging_events` equals the number of
distinct calendar days of its month on which its meter has at least one
reading with positive usage. -/
theorem monthly_charging_events_counts_positive_days (rows : List FactRow)
    (out : MonthlyRow) (hout : out ∈ get_query_monthly_result rows) :
    out.charging_events =
      (positiveUsageDays rows out.year_no out.month_no out.meter_name).card ∧
    ∀ d : Nat,
      d ∈ positiveUsageDays rows out.year_no out.month_no out.meter_name ↔
        ∃ r ∈ rows, r.year = out.year_no ∧ r.month = out.month_no ∧
          r.meter_name = out.meter_name ∧ 0 < r.total_usage_kwh ∧
          r.day = d := by
  rw [get_query_monthly_result] at hout
  obtain ⟨k, _hk, rfl⟩ := List.mem_map.mp hout
  exact ⟨chargingEventsOf_eq_card rows k,
    fun d => mem_positiveUsageDays rows k.1 k.2.1 k.2.2 d⟩

/-- Witness for `monthly_charging_events_counts_positive_days` on the
sample fact rows. -/
theorem monthly_charging_events_counts_positive_days_witness :
    sampleMonthlyOut ∈ get_query_monthly_result sampleFactRows ∧
    sampleMonthlyOut.charging_events =
      (positiveUsageDays sampleFactRows sampleMonthlyOut.year_no
        sampleMonthlyOut.month_no sampleMonthlyOut.meter_name).card := by
  have hmem : sampleMonthlyOut ∈ get_query_monthly_result sampleFactRows := by
    norm_num [get_query_monthly_result, sampleFactRows, monthlyKey,
      chargingEventsOf, totalUsageOf, sampleMonthlyOut]
  exact ⟨hmem,
    (monthly_charging_events_counts_positive_days sampleFactRows
      sampleMonthlyOut hmem).1⟩

/-- C4: when every fact row carries a valid calendar day for its month,
every monthly result row's `charging_events` is at most the number of
days of that month. -/
theorem monthly_charging_events_le_days_in_month (rows : List FactRow)
    (hvalid : ∀ r ∈ rows, 1 ≤ r.day ∧ r.day ≤ daysInMonth r.year r.month)
    (out : MonthlyRow) (hout : out ∈ get_query_monthly_result rows) :
    out.charging_events ≤ daysInMonth out.year_no out.month_no := by
  rw [get_query_monthly_result] at hout
  obtain ⟨k, _hk, rfl⟩ := List.mem_map.mp hout
  show chargingEventsOf rows k ≤ daysInMonth k.1 k.2.1
  rw [chargingEventsOf_eq_card]
  have hsub : positiveUsageDays rows k.1 k.2.1 k.2.2 ⊆
      Finset.Icc 1 (daysInMonth k.1 k.2.1) := by
    intro d hd
    rw [mem_positiveUsageDays] at hd
    obtain ⟨r, hr, hy, hm, _, _, hd'⟩ := hd
    rw [Finset.mem_Icc]
    have hv := hvalid r hr
    rw [hy, hm, hd'] at hv
    exact hv
  calc (positiveUsageDays rows k.1 k.2.1 k.2.2).card
      ≤ (Finset.Icc 1 (daysInMonth k.1 k.2.1)).card :=
        Finset.card_le_card hsub
    _ = daysInMonth k.1 k.2.1 := by rw [Nat.card_Icc]; omega

/-- Witness for `monthly_charging_events_le_days_in_month` on the sample
fact rows. -/
theorem monthly_charging_events_le_days_in_month_witness :
    (∀ r ∈ sampleFactRows,
      1 ≤ r.day ∧ r.day ≤ daysInMonth r.year r.month) ∧
    sampleMonthlyOut ∈ get_query_monthly_result sampleFactRows ∧
    sampleMonthlyOut.charging_events ≤
      daysInMonth sampleMonthlyOut.year_no sampleMonthlyOut.month_no := by
  have hvalid : ∀ r ∈ sampleFactRows,
      1 ≤ r.day ∧ r.day ≤ daysInMonth r.year r.month := by decide
  have hmem : sampleMonthlyOut ∈ get_query_monthly_result sampleFactRows := by
    norm_num [get_query_monthly_result, sampleFactRows, monthlyKey,
      chargingEventsOf, totalUsageOf, sampleMonthlyOut]
  exact ⟨hvalid, hmem,
    monthly_charging_events_le_days_in_month sampleFactRows hvalid
      sampleMonthlyOut hmem⟩

/-- A day-of-week index below seven names a canonical day. -/
theorem dayNameOfNat_mem_day_order (n : Nat) (h : n < 7) :
    dayNameOfNat n ∈ day_order := by
  interval_cases n <;> decide

/-- Every fact row's `strftime('%A')` day name is canonical. -/
theorem dayName_mem_day_order (r : FactRow) : r.dayName ∈ day_order := by
  have h : dayOfWeek r.year r.month r.day < 7 := by
    unfold dayOfWeek
    exact Nat.mod_lt _ (by norm_num)
  exact dayNameOfNat_mem_day_order _ h

/-- C8: daily result rows carry only the seven canonical English day
names, and the weekly chart's day axis is invariant under reordering of
the charted rows and is always a Sunday-first subsequence of
`day_order`. -/
theorem weekly_day_names_canonical_sunday_first :
    (∀ (rows : List FactRow), ∀ out ∈ get_query_daily_kwh_result rows,
      out.day_name ∈ day_order) ∧
    (∀ data data' : List DailyRow, data.Perm data' →
      displayedDayAxis data = displayedDayAxis data') ∧
    (∀ data : List DailyRow, (displayedDayAxis data).Sublist day_order) := by
  refine ⟨?_, ?_, fun data => List.filter_sublist _⟩
  · intro rows out hout
    rw [get_query_daily_kwh_result] at hout
    obtain ⟨k, hk, rfl⟩ := List.mem_map.mp hout
    rw [List.mem_dedup] at hk
    obtain ⟨r, _hr, rfl⟩ := List.mem_map.mp hk
    exact dayName_mem_day_order r
  · intro data data' hperm
    unfold displayedDayAxis
    apply List.filter_congr
    intro d _
    rw [Bool.eq_iff_iff]
    simp only [List.any_eq_true, decide_eq_true_eq]
    constructor
    · rintro ⟨r, hr, hd⟩
      exact ⟨r, hperm.mem_iff.mp hr, hd⟩
    · rintro ⟨r, hr, hd⟩
      exact ⟨r, hperm.mem_iff.mpr hr, hd⟩

/-- Witness for `weekly_day_names_canonical_sunday_first` on the sample
fact rows and a two-row chart input and its swap. -/
theorem weekly_day_names_canonical_sunday_first_witness :
    (sampleDailyOut ∈ get_query_daily_kwh_result sampleFactRows) ∧
    sampleDailyOut.day_name ∈ day_order ∧
    ([sampleDailyRow, sampleDailyRow2].Perm
      [sampleDailyRow2, sampleDailyRow]) ∧
    displayedDayAxis [sampleDailyRow, sampleDailyRow2] =
      displayedDayAxis [sampleDailyRow2, sampleDailyRow] := by
  have hmem : sampleDailyOut ∈ get_query_daily_kwh_result sampleFactRows := by
    have hfs : ¬ ("Friday" : String) = "Sunday" := by decide
    have hsf : ¬ ("Sunday" : String) = "Friday" := by decide
    norm_num [get_query_daily_kwh_result, sampleFactRows, dailyKey,
      FactRow.dayName, dayNameOfNat, dayOfWeek, sampleDailyOut, hfs, hsf]
  have hperm : [sampleDailyRow, sampleDailyRow2].Perm
      [sampleDailyRow2, sampleDailyRow] :=
    List.Perm.swap sampleDailyRow2 sampleDailyRow []
  exact ⟨hmem,
    weekly_day_names_canonical_sunday_first.1 sampleFactRows
      sampleDailyOut hmem,
    hperm,
    weekly_day_names_canonical_sunday_first.2.1 _ _ hperm⟩

/-- C6: when the selected start date is strictly after the selected end
date (and monthly data was fetched, so the date widgets exist), the run
renders the invalid-range warning, the monthly chart displays the
unfiltered monthly data, and, when daily data is present, the weekly
chart displays the unfiltered daily data. -/
theorem invalid_range_warns_and_falls_back (df_base : List MonthlyRow)
    (df_daily : List DailyRow) (s e : AppDate) (hb : df_base ≠ [])
    (hrange : dateGtB s e = true) :
    UIEvent.warnInvalidRange ∈ (app df_base df_daily s e).1 ∧
    UIEvent.monthlyChart df_base ∈ (app df_base df_daily s e).1 ∧
    (df_daily ≠ [] →
      UIEvent.dailyChart df_daily ∈ (app df_base df_daily s e).1) := by
  have hbe : df_base.isEmpty = false := by
    simpa [List.isEmpty_iff] using hb
  have hle : dateLeB s e = false := by
    have := hrange
    unfold dateGtB at this
    cases h : dateLeB s e
    · rfl
    · rw [h] at this
      simp at this
  by_cases hd : df_daily.isEmpty
  · have hdn : df_daily = [] := List.isEmpty_iff.mp hd
    subst hdn
    simp [app, hbe, hle, dateGtB]
  · have hdf : df_daily.isEmpty = false := by
      cases h : df_daily.isEmpty
      · rfl
      · exact absurd h hd
    refine ⟨?_, ?_, fun _ => ?_⟩ <;>
      simp [app, hbe, hle, hdf, dateGtB]

/-- Witness for `invalid_range_warns_and_falls_back`: start 2024-07-01
after end 2024-06-15 on the sample data. -/
theorem invalid_range_warns_and_falls_back_witness :
    (sampleMonthlyDf ≠ []) ∧
    (dateGtB ⟨2024, 7, 1⟩ sampleDate = true) ∧
    UIEvent.warnInvalidRange ∈
      (app sampleMonthlyDf [sampleDailyRow] ⟨2024, 7, 1⟩ sampleDate).1 ∧
    UIEvent.monthlyChart sampleMonthlyDf ∈
      (app sampleMonthlyDf [sampleDailyRow] ⟨2024, 7, 1⟩ sampleDate).1 ∧
    UIEvent.dailyChart [sampleDailyRow] ∈
      (app sampleMonthlyDf [sampleDailyRow] ⟨2024, 7, 1⟩ sampleDate).1 := by
  have hb : sampleMonthlyDf ≠ [] := by simp [sampleMonthlyDf]
  have hr : dateGtB ⟨2024, 7, 1⟩ sampleDate = true := by decide
  have h := invalid_range_warns_and_falls_back sampleMonthlyDf
    [sampleDailyRow] ⟨2024, 7, 1⟩ sampleDate hb hr
  exact ⟨hb, hr, h.1, h.2.1, h.2.2 (by simp)⟩

/-- C10: when the monthly query returns no rows but the daily query
returns some, the run reaches the `start_date <= end_date` comparison
with both dates still `None` and aborts with a `TypeError`; no weekly
chart is rendered. -/
theorem empty_monthly_nonempty_daily_faults (df_daily : List DailyRow)
    (s e : AppDate) (hd : df_daily ≠ []) :
    (app [] df_daily s e).2 = some noneCompareError ∧
    ∀ d : List DailyRow, UIEvent.dailyChart d ∉ (app [] df_daily s e).1 := by
  have hdf : df_daily.isEmpty = false := by
    simpa [List.isEmpty_iff] using hd
  constructor
  · simp [app, hdf]
  · intro d
    simp [app, hdf]

/-- Witness for `empty_monthly_nonempty_daily_faults` at a one-row daily
result set. -/
theorem empty_monthly_nonempty_daily_faults_witness :
    ([sampleDailyRow] ≠ ([] : List DailyRow)) ∧
    (app [] [sampleDailyRow] sampleDate sampleDate).2 =
      some noneCompareError := by
  have hd : [sampleDailyRow] ≠ ([] : List DailyRow) := by simp
  exact ⟨hd,
    (empty_monthly_nonempty_daily_faults [sampleDailyRow] sampleDate
      sampleDate hd).1⟩

/-- C9 as stated is false: with an empty monthly result set and a
non-empty daily one, the run renders no warning at all (it aborts with a
`TypeError` right after the fetch message). -/
theorem empty_monthly_renders_no_warning :
    ¬ (UIEvent.warnNoData ∈
        (app [] [sampleDailyRow] sampleDate sampleDate).1 ∨
       UIEvent.warnInvalidRange ∈
        (app [] [sampleDailyRow] sampleDate sampleDate).1) := by
  simp [app, sampleDailyRow]

/-- C9 amended: an empty daily result set always renders the
"No data available." warning in place of the weekly chart; the empty
monthly result set renders no warning of its own. -/
theorem empty_daily_shows_warning (df_base : List MonthlyRow)
    (s e : AppDate) :
    UIEvent.warnNoData ∈ (app df_base [] s e).1 ∧
    ∀ d : List DailyRow, UIEvent.dailyChart d ∉ (app df_base [] s e).1 := by
  by_cases hb : df_base.isEmpty
  · constructor
    · simp [app, hb]
    · intro d
      simp [app, hb]
  · have hbf : df_base.isEmpty = false := by
      cases h : df_base.isEmpty
      · rfl
      · exact absurd h hb
    constructor
    · simp [app, hbf]
    · intro d
      simp [app, hbf]

/-- C2: the spec's example: the pivot of
`[(2024,1,"M1",100,5),(2024,1,"M2",50,3)]` with totals appended has a
single data row `(2024,1)` whose per-meter cells are `M1 kWh=100`,
`M1 events=5`, `M2 kWh=50`, `M2 events=3` and whose `Total` column cells
are `Total kWh=150`, `Total events=8`. -/
theorem spec_example_pivot_totals :
    (get_totals (get_pivot_monthly_summary specExampleDf)).index =
        [(2024, 1)] ∧
    (get_totals (get_pivot_monthly_summary specExampleDf)).meters =
        ["M1", "M2"] ∧
    (get_totals (get_pivot_monthly_summary specExampleDf)).cell (2024, 1)
        "M1" Metric.total_usage_kwh = 100 ∧
    (get_totals (get_pivot_monthly_summary specExampleDf)).cell (2024, 1)
        "M1" Metric.charging_events = 5 ∧
    (get_totals (get_pivot_monthly_summary specExampleDf)).cell (2024, 1)
        "M2" Metric.total_usage_kwh = 50 ∧
    (get_totals (get_pivot_monthly_summary specExampleDf)).cell (2024, 1)
        "M2" Metric.charging_events = 3 ∧
    (get_totals (get_pivot_monthly_summary specExampleDf)).totalCol (2024, 1)
        Metric.total_usage_kwh = 150 ∧
    (get_totals (get_pivot_monthly_summary specExampleDf)).totalCol (2024, 1)
        Metric.charging_events = 8 := by
  have h21 : ¬ ("M2" : String) = "M1" := by decide
  have h12 : ¬ ("M1" : String) = "M2" := by decide
  refine ⟨?_, ?_, ?_, ?_, ?_, ?_, ?_, ?_⟩ <;>
    norm_num [get_totals, get_pivot_monthly_summary, pivot_table,
      specExampleDf, MonthlyRow.metric, h21, h12,
      List.dedup_cons_of_not_mem, List.dedup_nil]

/-- C7: every daily result row's total sums exactly the positive readings
of its `(year, day_name, meter)` group, and rows with zero or negative
usage contribute nothing: appending any batch of non-positive readings
leaves the daily result set unchanged. -/
theorem daily_totals_sum_positive_readings (rows extra : List FactRow)
    (hextra : ∀ r ∈ extra, r.total_usage_kwh ≤ 0) :
    (∀ out ∈ get_query_daily_kwh_result rows,
      out.total_usage_kwh =
        ((rows.filter (fun r => decide (0 < r.total_usage_kwh ∧
            r.year = out.year ∧ r.dayName = out.day_name ∧
            r.meter_name = out.meter_name))).map (·.total_usage_kwh)).sum) ∧
    get_query_daily_kwh_result (rows ++ extra) =
      get_query_daily_kwh_result rows := by
  constructor
  · intro out hout
    rw [get_query_daily_kwh_result] at hout
    obtain ⟨k, _hk, rfl⟩ := List.mem_map.mp hout
    show (((rows.filter (fun r => decide (0 < r.total_usage_kwh))).filter
        (fun r => dailyKey r = k)).map (·.total_usage_kwh)).sum = _
    congr 2
    rw [List.filter_filter]
    apply List.filter_congr
    intro r _
    rw [← Bool.decide_and]
    apply decide_eq_decide.mpr
    simp only [dailyKey, Prod.ext_iff]
    tauto
  · have hnil : extra.filter (fun r => decide (0 < r.total_usage_kwh)) = [] := by
      rw [List.filter_eq_nil_iff]
      intro r hr h
      exact absurd (of_decide_eq_true h) (not_lt.mpr (hextra r hr))
    rw [get_query_daily_kwh_result, get_query_daily_kwh_result,
      List.filter_append, hnil, List.append_nil]

/-- Witness for `daily_totals_sum_positive_readings`: the sample rows plus
one negative reading produce the same daily result, and the Friday total
sums the two positive day-5 readings. -/
theorem daily_totals_sum_positive_readings_witness :
    (∀ r ∈ [sampleZeroRow], r.total_usage_kwh ≤ 0) ∧
    get_query_daily_kwh_result (sampleFactRows ++ [sampleZeroRow]) =
      get_query_daily_kwh_result sampleFactRows := by
  have hextra : ∀ r ∈ [sampleZeroRow], r.total_usage_kwh ≤ 0 := by
    intro r hr
    simp only [List.mem_singleton] at hr
    rw [hr]
    norm_num [sampleZeroRow]
  exact ⟨hextra,
    (daily_totals_sum_positive_readings sampleFactRows [sampleZeroRow]
      hextra).2⟩
